import Mathlib

/-!
A shallow embedding of the widget layout pipeline of `src/src/index.ts` (the
`ImPdf` class), together with theorems checking the natural-language
specification's claims against it.

Modelling conventions:
* JavaScript numbers are embedded as `ℚ` (every concrete value appearing in
  the claims is exactly representable, and all arithmetic the claims exercise
  is exact in both models).  `Number.MIN_VALUE` and `Number.MAX_VALUE` are the
  exact rational values of those doubles.  The embedding uses the Lean
  convention `x / 0 = 0`; the source divides by `w.children.length` only, and
  no claim exercises an empty-children overflow.
* The TS field `children?: Widget[]` is embedded as a `childrenDef : Bool`
  flag (`false` = the field is `undefined`) together with a `children` list;
  every function consults the flag exactly where the source tests
  `w.children != undefined`.
* The TS `parent` back-reference is embedded by passing the parent's state at
  the moment of the recursive call as an explicit argument.
* The size-spec union gives `value`/`strictness` only to the
  `pixels`/`text`/`percentOfParent` variants; the source never constructs an
  aggregate spec carrying them, and reads them through `?? 0`
  (`strictnessD`).
-/

inductive LayoutDirection where
  | col
  | row
deriving DecidableEq

inductive UiSizeKind where
  | pixels
  | text
  | percentOfParent
  | childrenSum
  | childrenMax
deriving DecidableEq

inductive UiSize where
  | pixels (value strictness : ℚ)
  | text (value strictness : ℚ)
  | percentOfParent (value strictness : ℚ)
  | childrenSum
  | childrenMax
deriving DecidableEq

def UiSize.kind : UiSize → UiSizeKind
  | .pixels _ _ => .pixels
  | .text _ _ => .text
  | .percentOfParent _ _ => .percentOfParent
  | .childrenSum => .childrenSum
  | .childrenMax => .childrenMax

/-- The source's `w.size_.strictness ?? 0`. -/
def UiSize.strictnessD : UiSize → ℚ
  | .pixels _ s => s
  | .text _ s => s
  | .percentOfParent _ s => s
  | .childrenSum => 0
  | .childrenMax => 0

inductive WidgetData where
  | none
  | text (data : String) (wrap : Bool) (maxLines : ℚ)
  | image (data imageFormat : String)
deriving DecidableEq

structure Point where
  x : ℚ
  y : ℚ
deriving DecidableEq

structure Dimensions where
  w : ℚ
  h : ℚ
deriving DecidableEq

/-- The exact rational value of the JS double `Number.MIN_VALUE`. -/
def numberMinValue : ℚ := 1 / 2 ^ 1074

/-- The exact rational value of the JS double `Number.MAX_VALUE`. -/
def numberMaxValue : ℚ := (2 ^ 53 - 1) * 2 ^ 971

inductive Widget where
  | mk (childrenDef : Bool) (children : List Widget)
       (sizeX sizeY : UiSize)
       (relativePosition : Point) (dimensions : Dimensions)
       (layoutDirection : Option LayoutDirection)
       (padding elementPadding : ℚ)
       (data : WidgetData)

def Widget.childrenDef : Widget → Bool
  | .mk b _ _ _ _ _ _ _ _ _ => b

def Widget.children : Widget → List Widget
  | .mk _ cs _ _ _ _ _ _ _ _ => cs

def Widget.sizeX : Widget → UiSize
  | .mk _ _ sx _ _ _ _ _ _ _ => sx

def Widget.sizeY : Widget → UiSize
  | .mk _ _ _ sy _ _ _ _ _ _ => sy

def Widget.relativePosition : Widget → Point
  | .mk _ _ _ _ rp _ _ _ _ _ => rp

def Widget.dimensions : Widget → Dimensions
  | .mk _ _ _ _ _ d _ _ _ _ => d

def Widget.layoutDirection : Widget → Option LayoutDirection
  | .mk _ _ _ _ _ _ ld _ _ _ => ld

def Widget.padding : Widget → ℚ
  | .mk _ _ _ _ _ _ _ p _ _ => p

def Widget.elementPadding : Widget → ℚ
  | .mk _ _ _ _ _ _ _ _ ep _ => ep

def Widget.data : Widget → WidgetData
  | .mk _ _ _ _ _ _ _ _ _ d => d

def Widget.setDimensions : Widget → Dimensions → Widget
  | .mk b cs sx sy rp _ ld p ep d, dims => .mk b cs sx sy rp dims ld p ep d

def Widget.setChildren : Widget → List Widget → Widget
  | .mk b _ sx sy rp dims ld p ep d, cs => .mk b cs sx sy rp dims ld p ep d

def Widget.setRelativePosition : Widget → Point → Widget
  | .mk b cs sx sy _ dims ld p ep d, rp => .mk b cs sx sy rp dims ld p ep d

instance : Inhabited Widget :=
  ⟨.mk false [] .childrenSum .childrenSum ⟨0, 0⟩ ⟨0, 0⟩ Option.none 0 0 .none⟩

/-- `w.children[i]`, with a default for out-of-range access (used only to
state concrete facts about in-range children). -/
def Widget.childAt (w : Widget) (i : ℕ) : Widget :=
  w.children.getD i default

/-- The source's `isTextWidget`: `w.data.kind == "text"`. -/
def Widget.isTextWidget : Widget → Bool
  | w => match w.data with
    | .text _ _ _ => true
    | _ => false

/-- `w.children.reduce((acc, cur) => acc + cur.dimensions.w, 0)`. -/
def childrenSumW (cs : List Widget) : ℚ :=
  cs.foldl (fun acc c => acc + c.dimensions.w) 0

/-- `w.children.reduce((acc, cur) => Math.max(acc, cur.dimensions.w), Number.MIN_VALUE)`. -/
def childrenMaxW (cs : List Widget) : ℚ :=
  cs.foldl (fun acc c => max acc c.dimensions.w) numberMinValue

def childrenSumH (cs : List Widget) : ℚ :=
  cs.foldl (fun acc c => acc + c.dimensions.h) 0

def childrenMaxH (cs : List Widget) : ℚ :=
  cs.foldl (fun acc c => max acc c.dimensions.h) numberMinValue

mutual

/-- Embeds `calculateWidgetSizes` (src/src/index.ts:426-475).

The `parent` argument stands for the `w.parent` back-reference: when the
source recurses into children it has already updated `w.dimensions` with the
standalone/percent step (but not yet the aggregate step), so the widget
passed down to the children is the post-standalone-step `w₁`. -/
def calculateWidgetSizes (parent : Option Widget) : Widget → Widget
  | .mk cdef cs sx sy rp dims ld pad ep dat =>
    let dw1 : ℚ :=
      match sx with
      | .pixels v _ => v
      | .text v _ => v
      | .percentOfParent v _ =>
        match parent with
        | some p => if p.sizeX.kind = .childrenSum then dims.w else p.dimensions.w * (v / 100)
        | Option.none => dims.w
      | _ => dims.w
    let dh1 : ℚ :=
      match sy with
      | .pixels v _ => v
      | .text v _ => v
      | .percentOfParent v _ =>
        match parent with
        | some p => if p.sizeY.kind = .childrenSum then dims.h else p.dimensions.h * (v / 100)
        | Option.none => dims.h
      | _ => dims.h
    let w₁ := Widget.mk cdef cs sx sy rp ⟨dw1, dh1⟩ ld pad ep dat
    let cs' := if cdef then calculateWidgetSizesChildren w₁ cs else cs
    let dw2 : ℚ :=
      match sx with
      | .childrenSum => if cdef then childrenSumW cs' else 0
      | .childrenMax => if cdef then childrenMaxW cs' else 0
      | _ => dw1
    let dh2 : ℚ :=
      match sy with
      | .childrenSum => if cdef then childrenSumH cs' else 0
      | .childrenMax => if cdef then childrenMaxH cs' else 0
      | _ => dh1
    Widget.mk cdef cs' sx sy rp ⟨dw2, dh2⟩ ld pad ep dat

/-- The `for` loop `w.children[i] = this.calculateWidgetSizes(w.children[i])`. -/
def calculateWidgetSizesChildren (parent : Widget) : List Widget → List Widget
  | [] => []
  | c :: rest => calculateWidgetSizes (some parent) c :: calculateWidgetSizesChildren parent rest

end

/-- The indexed `reduce` computing `totalChildDimensions`
(src/src/index.ts:479-491); `isRow` is `w.layoutDirection == "row"`. -/
def totalChildDimensionsAux (isRow : Bool) (ep : ℚ) : ℕ → Dimensions → List Widget → Dimensions
  | _, acc, [] => acc
  | i, acc, c :: rest =>
    totalChildDimensionsAux isRow ep (i + 1)
      ⟨acc.w + c.dimensions.w + (if isRow = true ∧ 0 < i then ep else 0),
       acc.h + c.dimensions.h + (if isRow = false ∧ 0 < i then ep else 0)⟩ rest

def totalChildDimensions (w : Widget) : Dimensions :=
  totalChildDimensionsAux (w.layoutDirection = some .row) w.elementPadding 0 ⟨0, 0⟩ w.children

/-- The body of the width-shrinking loop of `solveLayoutCollisions`
(src/src/index.ts:496-502): `childSizeDecrease = violation / n × (1 − strictness)`. -/
def shrinkW (violation n : ℚ) (c : Widget) : Widget :=
  c.setDimensions ⟨c.dimensions.w - violation / n * (1 - c.sizeX.strictnessD), c.dimensions.h⟩

/-- The body of the height-shrinking loop of `solveLayoutCollisions`
(src/src/index.ts:504-513). -/
def shrinkH (violation n : ℚ) (c : Widget) : Widget :=
  c.setDimensions ⟨c.dimensions.w, c.dimensions.h - violation / n * (1 - c.sizeY.strictnessD)⟩

/-- Embeds `solveLayoutCollisions` (src/src/index.ts:477-518).  Note that the
source function does not recurse: it only rescales the dimensions of the
immediate children of `w`. -/
def solveLayoutCollisions (w : Widget) : Widget :=
  if w.childrenDef then
    let total := totalChildDimensions w
    let cs := w.children
    let n : ℚ := cs.length
    let cs1 :=
      if w.dimensions.w < total.w then cs.map (shrinkW (total.w - w.dimensions.w) n)
      else cs
    let cs2 :=
      if w.dimensions.h < total.h then cs1.map (shrinkH (total.h - w.dimensions.h) n)
      else cs1
    w.setChildren cs2
  else w

/-- A widget with `pixels` (Fixed) specs of value 10 on both axes and padding 5. -/
def c5Widget : Widget :=
  .mk false [] (.pixels 10 0) (.pixels 10 0) ⟨0, 0⟩ ⟨0, 0⟩ Option.none 5 0 .none

/-- A leaf whose width is 50% of its parent. -/
def c3Node : Widget :=
  .mk false [] (.percentOfParent 50 0) (.pixels 5 1) ⟨0, 0⟩ ⟨0, 0⟩ Option.none 0 0 .none

/-- A parent whose width is `childrenSum` (an aggregate kind). -/
def c3Parent : Widget :=
  .mk true [c3Node] .childrenSum (.pixels 10 1) ⟨0, 0⟩ ⟨0, 0⟩ (some .col) 0 0 .none

/-- A grandparent with a concrete (pixels 200) width. -/
def c3Grandparent : Widget :=
  .mk true [c3Parent] (.pixels 200 1) (.pixels 50 1) ⟨0, 0⟩ ⟨0, 0⟩ (some .col) 0 0 .none

/-- A concrete-width (pixels 80) parent for the C3 witness. -/
def c3WitnessParent : Widget :=
  .mk false [] (.pixels 80 1) (.pixels 10 1) ⟨0, 0⟩ ⟨80, 10⟩ Option.none 0 0 .none

/-- A row of two fixed children of width 100 (strictness 1 and 0) inside a
container of resolved width 100. -/
def c1Widget : Widget :=
  .mk true
    [.mk false [] (.pixels 100 1) (.pixels 1 1) ⟨0, 0⟩ ⟨100, 1⟩ Option.none 0 0 .none,
     .mk false [] (.pixels 100 0) (.pixels 1 1) ⟨0, 0⟩ ⟨100, 1⟩ Option.none 0 0 .none]
    .childrenSum .childrenMax ⟨0, 0⟩ ⟨100, 50⟩ (some .row) 0 0 .none

/-- A 300-wide root whose single child (width 100) itself contains two
grandchildren of width 100 each: the grandchildren overflow the child. -/
def c4Widget : Widget :=
  .mk true
    [.mk true
       [.mk false [] (.pixels 100 0) (.pixels 5 1) ⟨0, 0⟩ ⟨100, 5⟩ Option.none 0 0 .none,
        .mk false [] (.pixels 100 0) (.pixels 5 1) ⟨0, 0⟩ ⟨100, 5⟩ Option.none 0 0 .none]
       (.pixels 100 0) (.pixels 10 1) ⟨0, 0⟩ ⟨100, 10⟩ (some .row) 0 0 .none]
    .childrenSum .childrenMax ⟨0, 0⟩ ⟨300, 300⟩ (some .row) 0 0 .none

/-- A width-100 row whose children have widths 100 (strictness 1) and 100
(strictness 0). -/
def c6Widget : Widget :=
  .mk true
    [.mk false [] (.pixels 100 1) (.pixels 1 1) ⟨0, 0⟩ ⟨100, 1⟩ Option.none 0 0 .none,
     .mk false [] (.pixels 100 0) (.pixels 1 1) ⟨0, 0⟩ ⟨100, 1⟩ Option.none 0 0 .none]
    .childrenSum .childrenMax ⟨0, 0⟩ ⟨100, 50⟩ (some .row) 0 0 .none

/-- A width-200 row with all-compressible children of widths 150 and 100
(the specification's Example 1). -/
def c6WitnessWidget : Widget :=
  .mk true
    [.mk false [] (.pixels 150 0) (.pixels 1 1) ⟨0, 0⟩ ⟨150, 1⟩ Option.none 0 0 .none,
     .mk false [] (.pixels 100 0) (.pixels 1 1) ⟨0, 0⟩ ⟨100, 1⟩ Option.none 0 0 .none]
    .childrenSum .childrenMax ⟨0, 0⟩ ⟨200, 50⟩ (some .row) 0 0 .none

/-- A row of two children with in-range strictness values, for the C10 witness. -/
def c10Widget : Widget :=
  .mk true
    [.mk false [] (.pixels 100 1) (.pixels 1 0) ⟨0, 0⟩ ⟨100, 1⟩ Option.none 0 0 .none,
     .mk false [] (.pixels 100 0) (.pixels 1 1) ⟨0, 0⟩ ⟨100, 1⟩ Option.none 0 0 .none]
    .childrenSum .childrenMax ⟨0, 0⟩ ⟨100, 50⟩ (some .row) 0 0 .none

def UiSize.usesPercent : UiSize → Bool
  | .percentOfParent _ _ => true
  | _ => false

mutual

/-- No node of the tree uses a `percentOfParent` spec on either axis. -/
def Widget.percentFree : Widget → Bool
  | .mk _ cs sx sy _ _ _ _ _ _ =>
    !sx.usesPercent && !sy.usesPercent && Widget.percentFreeList cs

def Widget.percentFreeList : List Widget → Bool
  | [] => true
  | c :: rest => c.percentFree && Widget.percentFreeList rest

end

/-- A `childrenMax`-wide container with a fixed-width child (100) and a
percent-width child (50%), all dimensions initially 0. -/
def c7Widget : Widget :=
  .mk true
    [.mk false [] (.pixels 100 1) (.pixels 10 1) ⟨0, 0⟩ ⟨0, 0⟩ Option.none 0 0 .none,
     .mk false [] (.percentOfParent 50 0) (.pixels 10 1) ⟨0, 0⟩ ⟨0, 0⟩ Option.none 0 0 .none]
    .childrenMax (.pixels 20 1) ⟨0, 0⟩ ⟨0, 0⟩ (some .row) 0 0 .none

/-- A percent-free tree for the C7 witness. -/
def c7WitnessWidget : Widget :=
  .mk true
    [.mk false [] (.pixels 7 1) (.pixels 3 1) ⟨0, 0⟩ ⟨0, 0⟩ Option.none 0 0 .none]
    .childrenSum .childrenMax ⟨0, 0⟩ ⟨0, 0⟩ (some .col) 0 0 .none

/-! ### The Position Resolver (`calculateRelativePositions`, src/src/index.ts:520-660)

The source recursion is bounded here by an explicit `fuel` argument (the
source recursion terminates because the only non-structural recursion -
into the column generated by text reflow - descends into freshly built
childless leaves; the fuel makes that argument explicit).  A call with
insufficient fuel answers `Except.error fuelExhausted`, which a run with fuel
exceeding the tree depth plus one never produces.  The `w.parent` reads of the
source are embedded as an optional `PosCtx` holding the parent state at call
time: its (already updated) relative position, its dimensions, direction, gap,
and the current state of its children array (already-positioned prefix,
original suffix), exactly what the source's in-place array mutation exposes. -/

/-- The parent state visible to `calculateRelativePositions` through
`w.parent`. -/
structure PosCtx where
  relativePosition : Point
  dimensions : Dimensions
  layoutDirection : Option LayoutDirection
  elementPadding : ℚ
  children : List Widget

def fuelExhausted : String := "insufficient fuel"

/-- `w.data.wrap` (meaningful only for text widgets). -/
def Widget.wrapFlag (w : Widget) : Bool :=
  match w.data with
  | .text _ wr _ => wr
  | _ => false

/-- One generated line leaf of the reflow column (src/src/index.ts:619-647). -/
def wrappedLineLeaf (measure : String → Dimensions) (t : String) : Widget :=
  .mk false [] (.text (measure t).w 1) (.text (measure t).h 1) ⟨0, 0⟩ ⟨0, 0⟩ Option.none 0 0
    (.text t false numberMaxValue)

/-- The reflow loop over `wrappedText` (src/src/index.ts:610-648): one leaf
per line, stopping as soon as `i ≥ maxLines − 1`. -/
def buildLineLeaves (measure : String → Dimensions) (maxLines : ℚ) :
    ℕ → List String → List Widget
  | _, [] => []
  | i, t :: rest =>
    if (i : ℚ) ≥ maxLines - 1 then []
    else wrappedLineLeaf measure t :: buildLineLeaves measure maxLines (i + 1) rest

/-- The relative-position/sibling computation at the head of
`calculateRelativePositions` (src/src/index.ts:521-552): the root keeps the
page insets `(minX, minY) = (0, 0)`; a first child starts from its own
`padding` plus its previous relative position; a later child chains off the
already-updated previous sibling read from the parent's children array. -/
def positionOrigin (parent : Option PosCtx) (index : Option ℕ) (w : Widget) :
    Except String (Point × Option Widget) :=
  match parent, index with
  | Option.none, _ => .ok (⟨0, 0⟩, Option.none)
  | some _, some 0 =>
    .ok (⟨w.padding + w.relativePosition.x, w.padding + w.relativePosition.y⟩, Option.none)
  | some ctx, some (i + 1) =>
    match ctx.children.get? i with
    | some sib =>
      if ctx.layoutDirection = some .row then
        .ok (⟨sib.relativePosition.x + sib.dimensions.w + ctx.elementPadding,
              sib.relativePosition.y⟩, some sib)
      else
        .ok (⟨sib.relativePosition.x,
              sib.relativePosition.y + sib.dimensions.h + ctx.elementPadding⟩, some sib)
    | Option.none => .error "unreachable"
  | some _, Option.none => .error "unreachable"

/-- The overflow handling of `calculateRelativePositions`
(src/src/index.ts:554-651): sets the freshly computed relative position, then
either wraps a non-text/non-wrapping widget to the next row (first branch),
replaces an overflowing wrap-enabled text leaf by a reflow column (second
branch, sizes resolved immediately; the source passes `col` - whose `parent`
is `w.parent` - to `calculateWidgetSizes`, but the generated subtree contains
no `percentOfParent` spec, so the parent argument is never read and `none` is
observationally identical), or leaves the widget as positioned. -/
def applyOverflowRules (split : String → ℚ → List String) (measure : String → Dimensions)
    (pageDims : Dimensions) (parent : Option PosCtx) (rel : Point) (sibling : Option Widget)
    (w : Widget) : Widget :=
  let w₁ := w.setRelativePosition rel
  let parentDim : Dimensions :=
    match parent with
    | some ctx => ⟨ctx.relativePosition.x + ctx.dimensions.w,
                   ctx.relativePosition.y + ctx.dimensions.h⟩
    | Option.none => pageDims
  let parentIsRow : Bool :=
    match parent with
    | some ctx => ctx.layoutDirection = some .row
    | Option.none => false
  if parentDim.w ≤ rel.x + w₁.dimensions.w ∧ parentIsRow = true ∧
      sibling.isSome = true ∧ (w₁.isTextWidget = false ∨ w₁.wrapFlag = false) then
    match sibling with
    | some sib =>
      let newY := rel.y + sib.dimensions.h
      let newX : ℚ :=
        match parent with
        | some ctx =>
          match ctx.children.find? (fun child =>
              child.relativePosition.y + child.dimensions.h ≤ newY) with
          | some child => child.relativePosition.x
          | Option.none => 0
        | Option.none => 0
      w₁.setRelativePosition ⟨newX, newY⟩
    | Option.none => w₁
  else if parentDim.w ≤ rel.x + w₁.dimensions.w ∧ w₁.isTextWidget = true ∧
      w₁.wrapFlag = true then
    match w₁.data with
    | .text s _ ml =>
      let lines := split s (parentDim.w - rel.x)
      let col : Widget :=
        .mk true (buildLineLeaves measure ml 0 lines.tail) .childrenMax .childrenSum
          rel ⟨0, 0⟩ (some .col) 0 0 .none
      calculateWidgetSizes Option.none col
    | _ => w₁
  else w₁

mutual

/-- Embeds `calculateRelativePositions` (src/src/index.ts:520-660).
`parent = none` models `w.parent == undefined`; `index = none` models the
default index `-1` of the root call; the `.error "unreachable"` results embed
the source's `throw new Error("unreachable")` and the crash that reading the
missing sibling would be. -/
def calculateRelativePositions (split : String → ℚ → List String)
    (measure : String → Dimensions) (pageDims : Dimensions) :
    ℕ → Option PosCtx → Option ℕ → Widget → Except String Widget
  | 0, _, _, _ => .error fuelExhausted
  | fuel + 1, parent, index, w =>
    match positionOrigin parent index w with
    | .error e => .error e
    | .ok (rel, sibling) =>
      let w₂ := applyOverflowRules split measure pageDims parent rel sibling w
      if w₂.childrenDef = true then
        match calculateRelativePositionsChildren split measure pageDims fuel
            w₂.relativePosition w₂.dimensions w₂.layoutDirection w₂.elementPadding
            [] w₂.children with
        | .ok cs => .ok (w₂.setChildren cs)
        | .error e => .error e
      else .ok w₂
termination_by fuel _ _ _ => (fuel, 0)

/-- The loop `w.children[i] = this.calculateRelativePositions(w.children[i], i)`
(src/src/index.ts:653-657): `done` is the already-repositioned prefix of the
parent's (mutated-in-place) children array, `todo` the untouched suffix. -/
def calculateRelativePositionsChildren (split : String → ℚ → List String)
    (measure : String → Dimensions) (pageDims : Dimensions) :
    ℕ → Point → Dimensions → Option LayoutDirection → ℚ →
    List Widget → List Widget → Except String (List Widget)
  | _, _, _, _, _, done, [] => .ok done
  | fuel, rel, dims, ld, ep, done, c :: rest =>
    match calculateRelativePositions split measure pageDims fuel
        (some ⟨rel, dims, ld, ep, done ++ c :: rest⟩) (some done.length) c with
    | .ok c₂ =>
      calculateRelativePositionsChildren split measure pageDims fuel rel dims ld ep
        (done ++ [c₂]) rest
    | .error e => .error e
termination_by fuel _ _ _ _ _ todo => (fuel, todo.length + 1)

end

/-- Extract the widget of a successful resolver run (used only to state
concrete facts about runs that are proved to succeed). -/
def resultWidget (r : Except String Widget) : Widget :=
  match r with
  | .ok t => t
  | .error _ => default

def splitId : String → ℚ → List String := fun s _ => [s]

def measureConst : String → Dimensions := fun _ => ⟨1, 1⟩

def pageDims0 : Dimensions := ⟨300, 300⟩

/-- A root container with padding 5 whose only child is a leaf with its own
padding 3 and a stale relative position (0, 7). -/
def c8Root : Widget :=
  .mk true [.mk false [] (.pixels 10 1) (.pixels 10 1) ⟨0, 7⟩ ⟨10, 10⟩ Option.none 3 0 .none]
    .childrenSum .childrenMax ⟨0, 0⟩ ⟨100, 100⟩ (some .col) 5 0 .none

/-- The leaf used by the C8 witness: padding 3, stale relative position (0, 7). -/
def c8WitnessChild : Widget :=
  .mk false [] (.pixels 10 1) (.pixels 10 1) ⟨0, 7⟩ ⟨10, 10⟩ Option.none 3 0 .none

/-- The parent context of the C8 witness. -/
def c8WitnessCtx : PosCtx := ⟨⟨0, 0⟩, ⟨100, 100⟩, some .col, 0, [c8WitnessChild]⟩

/-- The calls `calculateRelativePositions` can actually receive from the
pipeline: the root call has no parent context, and a child call at index `i+1`
always has its predecessor present in the parent's children array. -/
def goodCall : Option PosCtx → Option ℕ → Prop
  | Option.none, _ => True
  | some _, some 0 => True
  | some ctx, some (i + 1) => i < ctx.children.length
  | some _, Option.none => False

def isOkResult (r : Except String Widget) : Bool :=
  match r with
  | .ok _ => true
  | .error _ => false

/-- A root whose only child reaches the Position Resolver with zero width and
zero height. -/
def c9Root : Widget :=
  .mk true [.mk false [] (.pixels 0 1) (.pixels 0 1) ⟨0, 0⟩ ⟨0, 0⟩ Option.none 0 0 .none]
    .childrenSum .childrenMax ⟨0, 0⟩ ⟨100, 100⟩ (some .col) 0 0 .none

/-- A line splitter that breaks the sample text into the two lines the
external `splitToWidth` contract promises (each fitting the given width). -/
def c2Split : String → ℚ → List String :=
  fun s _ => if s = "AAA BBB" then ["AAA", "BBB"] else [s]

def c2Measure : String → Dimensions := fun _ => ⟨30, 7⟩

/-- A width-100 row whose only child is a wrap-enabled text leaf of resolved
width 500 and `maxLines = 10`. -/
def c2Root : Widget :=
  .mk true
    [.mk false [] (.text 500 1) (.text 10 1) ⟨0, 0⟩ ⟨500, 10⟩ Option.none 0 0
      (.text "AAA BBB" true 10)]
    .childrenSum .childrenMax ⟨0, 0⟩ ⟨100, 200⟩ (some .row) 0 0 .none

@[simp] theorem Widget.dimensions_setDimensions (w : Widget) (d : Dimensions) :
    (w.setDimensions d).dimensions = d := by cases w; rfl

@[simp] theorem Widget.childrenDef_setDimensions (w : Widget) (d : Dimensions) :
    (w.setDimensions d).childrenDef = w.childrenDef := by cases w; rfl

@[simp] theorem Widget.children_setDimensions (w : Widget) (d : Dimensions) :
    (w.setDimensions d).children = w.children := by cases w; rfl

@[simp] theorem Widget.sizeX_setDimensions (w : Widget) (d : Dimensions) :
    (w.setDimensions d).sizeX = w.sizeX := by cases w; rfl

@[simp] theorem Widget.sizeY_setDimensions (w : Widget) (d : Dimensions) :
    (w.setDimensions d).sizeY = w.sizeY := by cases w; rfl

@[simp] theorem Widget.relativePosition_setDimensions (w : Widget) (d : Dimensions) :
    (w.setDimensions d).relativePosition = w.relativePosition := by cases w; rfl

@[simp] theorem Widget.layoutDirection_setDimensions (w : Widget) (d : Dimensions) :
    (w.setDimensions d).layoutDirection = w.layoutDirection := by cases w; rfl

@[simp] theorem Widget.padding_setDimensions (w : Widget) (d : Dimensions) :
    (w.setDimensions d).padding = w.padding := by cases w; rfl

@[simp] theorem Widget.elementPadding_setDimensions (w : Widget) (d : Dimensions) :
    (w.setDimensions d).elementPadding = w.elementPadding := by cases w; rfl

@[simp] theorem Widget.data_setDimensions (w : Widget) (d : Dimensions) :
    (w.setDimensions d).data = w.data := by cases w; rfl

@[simp] theorem Widget.setDimensions_setDimensions (w : Widget) (d d' : Dimensions) :
    (w.setDimensions d).setDimensions d' = w.setDimensions d' := by cases w; rfl

@[simp] theorem Widget.setDimensions_self (w : Widget) :
    w.setDimensions w.dimensions = w := by cases w; rfl

@[simp] theorem Widget.children_setChildren (w : Widget) (cs : List Widget) :
    (w.setChildren cs).children = cs := by cases w; rfl

@[simp] theorem Widget.childrenDef_setChildren (w : Widget) (cs : List Widget) :
    (w.setChildren cs).childrenDef = w.childrenDef := by cases w; rfl

@[simp] theorem Widget.sizeX_setChildren (w : Widget) (cs : List Widget) :
    (w.setChildren cs).sizeX = w.sizeX := by cases w; rfl

@[simp] theorem Widget.sizeY_setChildren (w : Widget) (cs : List Widget) :
    (w.setChildren cs).sizeY = w.sizeY := by cases w; rfl

@[simp] theorem Widget.relativePosition_setChildren (w : Widget) (cs : List Widget) :
    (w.setChildren cs).relativePosition = w.relativePosition := by cases w; rfl

@[simp] theorem Widget.dimensions_setChildren (w : Widget) (cs : List Widget) :
    (w.setChildren cs).dimensions = w.dimensions := by cases w; rfl

@[simp] theorem Widget.layoutDirection_setChildren (w : Widget) (cs : List Widget) :
    (w.setChildren cs).layoutDirection = w.layoutDirection := by cases w; rfl

@[simp] theorem Widget.padding_setChildren (w : Widget) (cs : List Widget) :
    (w.setChildren cs).padding = w.padding := by cases w; rfl

@[simp] theorem Widget.elementPadding_setChildren (w : Widget) (cs : List Widget) :
    (w.setChildren cs).elementPadding = w.elementPadding := by cases w; rfl

@[simp] theorem Widget.data_setChildren (w : Widget) (cs : List Widget) :
    (w.setChildren cs).data = w.data := by cases w; rfl

@[simp] theorem Widget.relativePosition_setRelativePosition (w : Widget) (p : Point) :
    (w.setRelativePosition p).relativePosition = p := by cases w; rfl

@[simp] theorem Widget.childrenDef_setRelativePosition (w : Widget) (p : Point) :
    (w.setRelativePosition p).childrenDef = w.childrenDef := by cases w; rfl

@[simp] theorem Widget.children_setRelativePosition (w : Widget) (p : Point) :
    (w.setRelativePosition p).children = w.children := by cases w; rfl

@[simp] theorem Widget.sizeX_setRelativePosition (w : Widget) (p : Point) :
    (w.setRelativePosition p).sizeX = w.sizeX := by cases w; rfl

@[simp] theorem Widget.sizeY_setRelativePosition (w : Widget) (p : Point) :
    (w.setRelativePosition p).sizeY = w.sizeY := by cases w; rfl

@[simp] theorem Widget.dimensions_setRelativePosition (w : Widget) (p : Point) :
    (w.setRelativePosition p).dimensions = w.dimensions := by cases w; rfl

@[simp] theorem Widget.layoutDirection_setRelativePosition (w : Widget) (p : Point) :
    (w.setRelativePosition p).layoutDirection = w.layoutDirection := by cases w; rfl

@[simp] theorem Widget.padding_setRelativePosition (w : Widget) (p : Point) :
    (w.setRelativePosition p).padding = w.padding := by cases w; rfl

@[simp] theorem Widget.elementPadding_setRelativePosition (w : Widget) (p : Point) :
    (w.setRelativePosition p).elementPadding = w.elementPadding := by cases w; rfl

@[simp] theorem Widget.data_setRelativePosition (w : Widget) (p : Point) :
    (w.setRelativePosition p).data = w.data := by cases w; rfl

@[simp] theorem shrinkW_dimensions (v n : ℚ) (c : Widget) :
    (shrinkW v n c).dimensions = ⟨c.dimensions.w - v / n * (1 - c.sizeX.strictnessD), c.dimensions.h⟩ := by
  rw [shrinkW]; simp

@[simp] theorem shrinkH_dimensions (v n : ℚ) (c : Widget) :
    (shrinkH v n c).dimensions = ⟨c.dimensions.w, c.dimensions.h - v / n * (1 - c.sizeY.strictnessD)⟩ := by
  rw [shrinkH]; simp

@[simp] theorem shrinkW_children (v n : ℚ) (c : Widget) :
    (shrinkW v n c).children = c.children := by rw [shrinkW]; simp

@[simp] theorem shrinkH_children (v n : ℚ) (c : Widget) :
    (shrinkH v n c).children = c.children := by rw [shrinkH]; simp

@[simp] theorem shrinkW_childrenDef (v n : ℚ) (c : Widget) :
    (shrinkW v n c).childrenDef = c.childrenDef := by rw [shrinkW]; simp

@[simp] theorem shrinkW_sizeX (v n : ℚ) (c : Widget) :
    (shrinkW v n c).sizeX = c.sizeX := by rw [shrinkW]; simp

@[simp] theorem shrinkW_sizeY (v n : ℚ) (c : Widget) :
    (shrinkW v n c).sizeY = c.sizeY := by rw [shrinkW]; simp

@[simp] theorem shrinkH_sizeX (v n : ℚ) (c : Widget) :
    (shrinkH v n c).sizeX = c.sizeX := by rw [shrinkH]; simp

@[simp] theorem shrinkH_sizeY (v n : ℚ) (c : Widget) :
    (shrinkH v n c).sizeY = c.sizeY := by rw [shrinkH]; simp

@[simp] theorem shrinkH_childrenDef (v n : ℚ) (c : Widget) :
    (shrinkH v n c).childrenDef = c.childrenDef := by rw [shrinkH]; simp

/-- Claim C5 counterexample: the claim predicts `dimensions = value + 2 × padding`
(here `10 + 2 × 5 = 20`) for a Fixed-sized node, but the size resolver assigns
the bare value 10: padding is never added. -/
theorem c5_counterexample :
    (calculateWidgetSizes Option.none c5Widget).dimensions.w = 10 ∧
      (10 : ℚ) ≠ 10 + 2 * 5 := by
  constructor
  · norm_num [calculateWidgetSizes, c5Widget, Widget.dimensions]
  · norm_num

/-- Claim C5 (amended): for every node whose size spec on an axis is `pixels`
(Fixed) or `text` (Measured), the Size Resolver sets that axis's resolved
dimension to the spec's value alone; padding is not added. -/
theorem c5_standalone_value_no_padding (parent : Option Widget) (w : Widget)
    (vx sx vy sy : ℚ)
    (hx : w.sizeX = .pixels vx sx ∨ w.sizeX = .text vx sx)
    (hy : w.sizeY = .pixels vy sy ∨ w.sizeY = .text vy sy) :
    (calculateWidgetSizes parent w).dimensions.w = vx ∧
      (calculateWidgetSizes parent w).dimensions.h = vy := by
  cases w with
  | mk cdef cs sX sY rp dims ld pad ep dat =>
    simp only [Widget.sizeX, Widget.sizeY] at hx hy
    rcases hx with hx | hx <;> rcases hy with hy | hy <;> subst hx <;> subst hy <;>
      simp [calculateWidgetSizes, Widget.dimensions]

/-- Witness for `c5_standalone_value_no_padding` at `c5Widget`. -/
theorem c5_standalone_value_no_padding_witness :
    (calculateWidgetSizes Option.none c5Widget).dimensions.w = 10 ∧
      (calculateWidgetSizes Option.none c5Widget).dimensions.h = 10 :=
  c5_standalone_value_no_padding Option.none c5Widget 10 0 10 0 (Or.inl rfl) (Or.inl rfl)

/-- Claim C3 counterexample: the claim predicts that the percent leaf under a
`childrenSum` parent takes its base from the concrete grandparent (width 200,
so `200 × 50% = 100`).  The code never walks past the immediate parent: the
leaf's width is simply left unchanged at 0. -/
theorem c3_counterexample :
    (((calculateWidgetSizes Option.none c3Grandparent).childAt 0).childAt 0).dimensions.w = 0 ∧
      (0 : ℚ) ≠ 200 * (50 / 100) := by
  constructor
  · norm_num [calculateWidgetSizes, calculateWidgetSizesChildren, c3Grandparent, c3Parent,
      c3Node, Widget.childAt, Widget.children, Widget.sizeX, Widget.sizeY, Widget.dimensions,
      UiSize.kind, childrenMaxW, childrenSumW, childrenMaxH, childrenSumH]
  · norm_num

/-- Claim C3 (amended): resolving a `percentOfParent` width consults only the
immediate parent.  If the node has a parent whose width spec is not
`childrenSum`, the base is that parent's current width (so a `childrenMax`
parent is used as-is, not skipped); if there is no parent, or the parent's
width spec is `childrenSum`, the node's width is left unchanged.  There is no
walk to further ancestors and no page-width fallback. -/
theorem c3_percent_base_is_immediate_parent (parent : Option Widget) (w : Widget) (v s : ℚ)
    (hx : w.sizeX = .percentOfParent v s) :
    (calculateWidgetSizes parent w).dimensions.w =
      match parent with
      | some p => if p.sizeX.kind = .childrenSum then w.dimensions.w
                  else p.dimensions.w * (v / 100)
      | Option.none => w.dimensions.w := by
  cases w with
  | mk cdef cs sX sY rp dims ld pad ep dat =>
    simp only [Widget.sizeX] at hx
    subst hx
    cases parent with
    | none => simp [calculateWidgetSizes, Widget.dimensions]
    | some p =>
      by_cases hk : p.sizeX.kind = UiSizeKind.childrenSum <;>
        simp [calculateWidgetSizes, Widget.dimensions, hk]

/-- Witness for `c3_percent_base_is_immediate_parent`: under a concrete parent
of width 80, a 50% leaf resolves to the parent-based value. -/
theorem c3_percent_base_is_immediate_parent_witness :
    (calculateWidgetSizes (some c3WitnessParent) c3Node).dimensions.w =
      (if c3WitnessParent.sizeX.kind = .childrenSum then c3Node.dimensions.w
       else c3WitnessParent.dimensions.w * (50 / 100)) :=
  c3_percent_base_is_immediate_parent (some c3WitnessParent) c3Node 50 0 rfl

/-- Claim C1 counterexample: with children (width 100, strictness 1) and
(width 100, strictness 0) in a width-100 container (violation 100), the claim's
remainder-carry formula gives the second child share
`violation_remaining / children_remaining × (1 − 0) = 100`, leaving width 0.
The code subtracts a fixed `violation / children.length × (1 − strictness) = 50`,
leaving width 50: the rigid child's unabsorbed share is not pushed onto later
children. -/
theorem c1_counterexample :
    ((solveLayoutCollisions c1Widget).childAt 1).dimensions.w = 50 ∧ (50 : ℚ) ≠ 0 := by
  constructor
  · norm_num [solveLayoutCollisions, c1Widget, Widget.childAt, Widget.children,
      Widget.childrenDef, Widget.dimensions, Widget.setDimensions, Widget.setChildren, shrinkW, shrinkH,
      Widget.sizeX, Widget.sizeY, Widget.layoutDirection, Widget.elementPadding,
      totalChildDimensions, totalChildDimensionsAux, UiSize.strictnessD]
  · norm_num

/-- Claim C1 (amended): when the children's total main-axis extent exceeds the
container's width, each child's width decreases by
`violation / children.length × (1 − strictness)`, where `violation` is the
fixed initial excess: the running violation is never decremented and a rigid
child's unabsorbed share is not redistributed to later children. -/
theorem c1_shrink_share_no_carry (w : Widget)
    (hdef : w.childrenDef = true)
    (hover : w.dimensions.w < (totalChildDimensions w).w) :
    (solveLayoutCollisions w).children.map (fun c => c.dimensions.w) =
      w.children.map (fun c =>
        c.dimensions.w -
          ((totalChildDimensions w).w - w.dimensions.w) / (w.children.length : ℚ) *
            (1 - c.sizeX.strictnessD)) := by
  rw [solveLayoutCollisions, if_pos hdef]
  simp only [Widget.children_setChildren]
  by_cases hh : w.dimensions.h < (totalChildDimensions w).h <;>
    simp [hover, hh, List.map_map, Function.comp_def]

/-- Witness for `c1_shrink_share_no_carry` at `c1Widget`. -/
theorem c1_shrink_share_no_carry_witness :
    c1Widget.dimensions.w < (totalChildDimensions c1Widget).w ∧
    (solveLayoutCollisions c1Widget).children.map (fun c => c.dimensions.w) =
      c1Widget.children.map (fun c =>
        c.dimensions.w -
          ((totalChildDimensions c1Widget).w - c1Widget.dimensions.w) /
              (c1Widget.children.length : ℚ) *
            (1 - c.sizeX.strictnessD)) :=
  ⟨by norm_num [c1Widget, totalChildDimensions, totalChildDimensionsAux, Widget.children,
      Widget.dimensions, Widget.layoutDirection, Widget.elementPadding],
   c1_shrink_share_no_carry c1Widget rfl
     (by norm_num [c1Widget, totalChildDimensions, totalChildDimensionsAux, Widget.children,
        Widget.dimensions, Widget.layoutDirection, Widget.elementPadding])⟩

/-- Claim C4 counterexample: the claim says overflow is resolved at every
container, but after `solveLayoutCollisions` on the root the grandchildren
still total 200 inside their width-100 parent: the solver never recursed. -/
theorem c4_counterexample :
    (((solveLayoutCollisions c4Widget).childAt 0).childAt 0).dimensions.w = 100 ∧
    (((solveLayoutCollisions c4Widget).childAt 0).childAt 1).dimensions.w = 100 ∧
    ((solveLayoutCollisions c4Widget).childAt 0).dimensions.w < 100 + 100 := by
  refine ⟨?_, ?_, ?_⟩ <;>
    norm_num [solveLayoutCollisions, c4Widget, Widget.childAt, Widget.children,
      Widget.childrenDef, Widget.dimensions, Widget.setDimensions, Widget.setChildren, shrinkW, shrinkH,
      Widget.sizeX, Widget.sizeY, Widget.layoutDirection, Widget.elementPadding,
      totalChildDimensions, totalChildDimensionsAux, UiSize.strictnessD]

/-- Claim C4 (amended): `solveLayoutCollisions` does not recurse.  It may
rescale the dimensions of the immediate children of the widget it is called
on, but every child's own subtree (its `children` field) is returned
unchanged, so overflow among grandchildren is not resolved. -/
theorem c4_solver_does_not_recurse (w : Widget) :
    (solveLayoutCollisions w).children.map (fun c => c.children) =
        w.children.map (fun c => c.children) ∧
    (solveLayoutCollisions w).children.map (fun c => c.childrenDef) =
        w.children.map (fun c => c.childrenDef) ∧
    (solveLayoutCollisions w).childrenDef = w.childrenDef := by
  rw [solveLayoutCollisions]
  by_cases hdef : w.childrenDef = true
  · rw [if_pos hdef]
    by_cases hw : w.dimensions.w < (totalChildDimensions w).w <;>
      by_cases hh : w.dimensions.h < (totalChildDimensions w).h <;>
        simp [hw, hh, hdef, List.map_map, Function.comp_def]
  · rw [if_neg hdef]
    exact ⟨rfl, rfl, rfl⟩

/-- Accumulator/step lemma for the width component of the `reduce` that
computes the total child extent: mapping a function that lowers every child
width by `d` lowers the total by `length × d`. -/
theorem totalChildDimensionsAux_w_map (isRow : Bool) (ep d : ℚ) (f : Widget → Widget)
    (cs : List Widget) (i : ℕ) (acc acc' : Dimensions) (t : ℚ)
    (hacc : acc'.w = acc.w + t)
    (hf : ∀ c ∈ cs, (f c).dimensions.w = c.dimensions.w - d) :
    (totalChildDimensionsAux isRow ep i acc' (cs.map f)).w =
      (totalChildDimensionsAux isRow ep i acc cs).w + t - cs.length * d := by
  induction cs generalizing i acc acc' t with
  | nil => simpa [totalChildDimensionsAux] using hacc
  | cons c rest ih =>
    rw [List.map_cons, totalChildDimensionsAux, totalChildDimensionsAux]
    have hstep := ih (i + 1)
      ⟨acc.w + c.dimensions.w + (if isRow = true ∧ 0 < i then ep else 0),
       acc.h + c.dimensions.h + (if isRow = false ∧ 0 < i then ep else 0)⟩
      ⟨acc'.w + (f c).dimensions.w + (if isRow = true ∧ 0 < i then ep else 0),
       acc'.h + (f c).dimensions.h + (if isRow = false ∧ 0 < i then ep else 0)⟩
      (t - d) (by simp only [hacc, hf c (by simp)]; ring)
      (fun x hx => hf x (by simp [hx]))
    rw [hstep]
    simp only [List.length_cons]
    push_cast
    ring

/-- Claim C6 counterexample: `c6Widget` has a child of strictness 0 (< 1), yet
after overflow resolution the children's total main-axis extent is 150, still
exceeding the container's width 100: `Σ + gaps ≤ container` fails whenever a
rigid sibling leaves part of the violation unabsorbed. -/
theorem c6_counterexample :
    (totalChildDimensions (solveLayoutCollisions c6Widget)).w = 150 ∧
    ¬((150 : ℚ) ≤ (solveLayoutCollisions c6Widget).dimensions.w) ∧
    (c6Widget.childAt 1).sizeX.strictnessD < 1 := by
  refine ⟨?_, ?_, ?_⟩ <;>
    norm_num [solveLayoutCollisions, c6Widget, Widget.childAt, Widget.children,
      Widget.childrenDef, Widget.dimensions, Widget.setDimensions, Widget.setChildren, shrinkW, shrinkH,
      Widget.sizeX, Widget.sizeY, Widget.layoutDirection, Widget.elementPadding,
      totalChildDimensions, totalChildDimensionsAux, UiSize.strictnessD]

/-- Claim C6 (amended): shrink conservation holds in the all-compressible
case: for a row container whose children all have main-axis strictness 0 and
whose children's total (with gaps) exceeds the container's width, the
post-resolution total exactly equals the container's width.  With any child of
positive strictness the total can remain strictly larger (see the
counterexample), so only this restricted form holds. -/
theorem c6_shrink_conservation_equality (w : Widget)
    (hdef : w.childrenDef = true)
    (hne : w.children ≠ [])
    (_hrow : w.layoutDirection = some .row)
    (hz : ∀ c ∈ w.children, c.sizeX.strictnessD = 0)
    (hover : w.dimensions.w < (totalChildDimensions w).w) :
    (totalChildDimensions (solveLayoutCollisions w)).w = w.dimensions.w := by
  have hn0 : w.children.length ≠ 0 := fun h0 => hne (List.length_eq_zero.mp h0)
  have hn : (w.children.length : ℚ) ≠ 0 := Nat.cast_ne_zero.mpr hn0
  have hfz : ∀ c ∈ w.children,
      (shrinkW ((totalChildDimensions w).w - w.dimensions.w) (w.children.length : ℚ)
          c).dimensions.w =
        c.dimensions.w -
          ((totalChildDimensions w).w - w.dimensions.w) / (w.children.length : ℚ) := by
    intro c hc
    simp [hz c hc]
  rw [solveLayoutCollisions, if_pos hdef]
  by_cases hh : w.dimensions.h < (totalChildDimensions w).h
  · simp only [hover, hh, if_true, ite_true]
    rw [totalChildDimensions]
    simp only [Widget.layoutDirection_setChildren, Widget.elementPadding_setChildren,
      Widget.children_setChildren]
    rw [totalChildDimensionsAux_w_map _ _ 0
        (shrinkH ((totalChildDimensions w).h - w.dimensions.h) (w.children.length : ℚ))
        _ 0 ⟨0, 0⟩ ⟨0, 0⟩ 0 (add_zero _).symm (fun c _ => by simp)]
    rw [totalChildDimensionsAux_w_map _ _
        (((totalChildDimensions w).w - w.dimensions.w) / (w.children.length : ℚ))
        (shrinkW ((totalChildDimensions w).w - w.dimensions.w) (w.children.length : ℚ))
        _ 0 ⟨0, 0⟩ ⟨0, 0⟩ 0 (add_zero _).symm hfz]
    rw [show (totalChildDimensionsAux (decide (w.layoutDirection = some LayoutDirection.row))
          w.elementPadding 0 ⟨0, 0⟩ w.children).w = (totalChildDimensions w).w from rfl]
    field_simp
  · simp only [hover, hh, if_true, ite_true, if_false, ite_false]
    rw [totalChildDimensions]
    simp only [Widget.layoutDirection_setChildren, Widget.elementPadding_setChildren,
      Widget.children_setChildren]
    rw [totalChildDimensionsAux_w_map _ _
        (((totalChildDimensions w).w - w.dimensions.w) / (w.children.length : ℚ))
        (shrinkW ((totalChildDimensions w).w - w.dimensions.w) (w.children.length : ℚ))
        _ 0 ⟨0, 0⟩ ⟨0, 0⟩ 0 (add_zero _).symm hfz]
    rw [show (totalChildDimensionsAux (decide (w.layoutDirection = some LayoutDirection.row))
          w.elementPadding 0 ⟨0, 0⟩ w.children).w = (totalChildDimensions w).w from rfl]
    field_simp

/-- Witness for `c6_shrink_conservation_equality` at `c6WitnessWidget`. -/
theorem c6_shrink_conservation_equality_witness :
    c6WitnessWidget.dimensions.w < (totalChildDimensions c6WitnessWidget).w ∧
    (totalChildDimensions (solveLayoutCollisions c6WitnessWidget)).w =
      c6WitnessWidget.dimensions.w :=
  ⟨by norm_num [c6WitnessWidget, totalChildDimensions, totalChildDimensionsAux, Widget.children,
      Widget.dimensions, Widget.layoutDirection, Widget.elementPadding],
   c6_shrink_conservation_equality c6WitnessWidget rfl
     (by simp [c6WitnessWidget, Widget.children])
     rfl
     (by
       intro c hc
       simp only [c6WitnessWidget, Widget.children, List.mem_cons, List.not_mem_nil,
         or_false] at hc
       rcases hc with rfl | rfl <;> rfl)
     (by norm_num [c6WitnessWidget, totalChildDimensions, totalChildDimensionsAux,
        Widget.children, Widget.dimensions, Widget.layoutDirection, Widget.elementPadding])⟩

/-- Claim C10: `solveLayoutCollisions` writes only the dimensions of the
immediate children and never increases them; everything else about the widget
(its own fields, the list structure, and each child's non-dimension fields) is
unchanged. -/
theorem c10_collision_solver_frame_and_monotone (w : Widget)
    (hs : ∀ c ∈ w.children,
      (0 ≤ c.sizeX.strictnessD ∧ c.sizeX.strictnessD ≤ 1) ∧
        (0 ≤ c.sizeY.strictnessD ∧ c.sizeY.strictnessD ≤ 1)) :
    (solveLayoutCollisions w).childrenDef = w.childrenDef ∧
    (solveLayoutCollisions w).sizeX = w.sizeX ∧
    (solveLayoutCollisions w).sizeY = w.sizeY ∧
    (solveLayoutCollisions w).relativePosition = w.relativePosition ∧
    (solveLayoutCollisions w).dimensions = w.dimensions ∧
    (solveLayoutCollisions w).layoutDirection = w.layoutDirection ∧
    (solveLayoutCollisions w).padding = w.padding ∧
    (solveLayoutCollisions w).elementPadding = w.elementPadding ∧
    (solveLayoutCollisions w).data = w.data ∧
    List.Forall₂ (fun c c' =>
        c' = c.setDimensions c'.dimensions ∧
        c'.dimensions.w ≤ c.dimensions.w ∧
        c'.dimensions.h ≤ c.dimensions.h)
      w.children (solveLayoutCollisions w).children := by
  have hnn : (0 : ℚ) ≤ (w.children.length : ℚ) := Nat.cast_nonneg _
  rw [solveLayoutCollisions]
  by_cases hdef : w.childrenDef = true
  · rw [if_pos hdef]
    refine ⟨by simp, by simp, by simp, by simp, by simp, by simp, by simp, by simp, by simp, ?_⟩
    simp only [Widget.children_setChildren]
    by_cases hw : w.dimensions.w < (totalChildDimensions w).w <;>
      by_cases hh : w.dimensions.h < (totalChildDimensions w).h <;>
        simp only [hw, hh, if_true, if_false, ite_true, ite_false, List.map_map]
    · rw [List.forall₂_map_right_iff, List.forall₂_same]
      intro c hc
      have hvw : (0 : ℚ) ≤ (totalChildDimensions w).w - w.dimensions.w :=
        sub_nonneg.mpr hw.le
      have hvh : (0 : ℚ) ≤ (totalChildDimensions w).h - w.dimensions.h :=
        sub_nonneg.mpr hh.le
      refine ⟨by simp [Function.comp_def, shrinkH, shrinkW], ?_, ?_⟩ <;>
        · simp only [Function.comp_apply, shrinkH_dimensions, shrinkW_dimensions,
            shrinkW_sizeY, shrinkH_sizeX]
          have := mul_nonneg (div_nonneg hvw hnn) (sub_nonneg.mpr (hs c hc).1.2)
          have := mul_nonneg (div_nonneg hvh hnn) (sub_nonneg.mpr (hs c hc).2.2)
          linarith
    · rw [List.forall₂_map_right_iff, List.forall₂_same]
      intro c hc
      have hvw : (0 : ℚ) ≤ (totalChildDimensions w).w - w.dimensions.w :=
        sub_nonneg.mpr hw.le
      refine ⟨by simp [shrinkW], ?_, ?_⟩ <;>
        · simp only [shrinkW_dimensions]
          have := mul_nonneg (div_nonneg hvw hnn) (sub_nonneg.mpr (hs c hc).1.2)
          linarith
    · rw [List.forall₂_map_right_iff, List.forall₂_same]
      intro c hc
      have hvh : (0 : ℚ) ≤ (totalChildDimensions w).h - w.dimensions.h :=
        sub_nonneg.mpr hh.le
      refine ⟨by simp [shrinkH], ?_, ?_⟩ <;>
        · simp only [shrinkH_dimensions]
          have := mul_nonneg (div_nonneg hvh hnn) (sub_nonneg.mpr (hs c hc).2.2)
          linarith
    · rw [List.forall₂_same]
      intro c _
      exact ⟨by simp, le_refl _, le_refl _⟩
  · rw [if_neg hdef]
    refine ⟨rfl, rfl, rfl, rfl, rfl, rfl, rfl, rfl, rfl, ?_⟩
    rw [List.forall₂_same]
    intro c _
    exact ⟨by simp, le_refl _, le_refl _⟩

/-- Witness for `c10_collision_solver_frame_and_monotone` at `c10Widget`. -/
theorem c10_collision_solver_frame_and_monotone_witness :
    (solveLayoutCollisions c10Widget).childrenDef = c10Widget.childrenDef ∧
    (solveLayoutCollisions c10Widget).sizeX = c10Widget.sizeX ∧
    (solveLayoutCollisions c10Widget).sizeY = c10Widget.sizeY ∧
    (solveLayoutCollisions c10Widget).relativePosition = c10Widget.relativePosition ∧
    (solveLayoutCollisions c10Widget).dimensions = c10Widget.dimensions ∧
    (solveLayoutCollisions c10Widget).layoutDirection = c10Widget.layoutDirection ∧
    (solveLayoutCollisions c10Widget).padding = c10Widget.padding ∧
    (solveLayoutCollisions c10Widget).elementPadding = c10Widget.elementPadding ∧
    (solveLayoutCollisions c10Widget).data = c10Widget.data ∧
    List.Forall₂ (fun c c' =>
        c' = c.setDimensions c'.dimensions ∧
        c'.dimensions.w ≤ c.dimensions.w ∧
        c'.dimensions.h ≤ c.dimensions.h)
      c10Widget.children (solveLayoutCollisions c10Widget).children :=
  c10_collision_solver_frame_and_monotone c10Widget
    (by
      intro c hc
      simp only [c10Widget, Widget.children, List.mem_cons, List.not_mem_nil, or_false] at hc
      rcases hc with rfl | rfl <;> norm_num [UiSize.strictnessD, Widget.sizeX, Widget.sizeY])

mutual

/-- `calculateWidgetSizes` is idempotent on percent-free trees, for arbitrary
parent arguments: without `percentOfParent` the parent is never consulted, and
every dimension written is a function of the specs and the recursively
resolved children alone. -/
theorem calculateWidgetSizes_idem (w : Widget) (h : w.percentFree = true)
    (p q : Option Widget) :
    calculateWidgetSizes p (calculateWidgetSizes q w) = calculateWidgetSizes q w := by
  cases w with
  | mk cdef cs sx sy rp dims ld pad ep dat =>
    rw [Widget.percentFree] at h
    simp only [Bool.and_eq_true, Bool.not_eq_true'] at h
    obtain ⟨⟨hsx, hsy⟩, hcs⟩ := h
    have hl : ∀ P Q : Widget,
        calculateWidgetSizesChildren P (calculateWidgetSizesChildren Q cs) =
          calculateWidgetSizesChildren Q cs :=
      fun P Q => calculateWidgetSizesChildren_idem cs hcs P Q
    cases sx <;> cases sy
    all_goals try (simp [UiSize.usesPercent] at hsx)
    all_goals try (simp [UiSize.usesPercent] at hsy)
    all_goals cases cdef <;>
      simp [calculateWidgetSizes, hl, Widget.dimensions, Widget.sizeX, Widget.sizeY]

theorem calculateWidgetSizesChildren_idem (cs : List Widget)
    (h : Widget.percentFreeList cs = true) (P Q : Widget) :
    calculateWidgetSizesChildren P (calculateWidgetSizesChildren Q cs) =
      calculateWidgetSizesChildren Q cs := by
  cases cs with
  | nil => simp [calculateWidgetSizesChildren]
  | cons c rest =>
    rw [Widget.percentFreeList] at h
    simp only [Bool.and_eq_true] at h
    rw [calculateWidgetSizesChildren, calculateWidgetSizesChildren]
    rw [calculateWidgetSizes_idem c h.1 (some P) (some Q)]
    rw [calculateWidgetSizesChildren_idem rest h.2 P Q]

end

/-- Claim C7 counterexample: on the first run the percent child reads its
`childrenMax` parent's width while it is still 0 and resolves to 0; on the
second run the parent's width is already 100, so the same child resolves to
50.  Re-running size resolution on the already-resolved tree does not yield
the same dimensions. -/
theorem c7_counterexample :
    ((calculateWidgetSizes Option.none (calculateWidgetSizes Option.none c7Widget)).childAt 1).dimensions.w
        = 50 ∧
    ((calculateWidgetSizes Option.none c7Widget).childAt 1).dimensions.w = 0 ∧
    (50 : ℚ) ≠ 0 := by
  refine ⟨?_, ?_, by norm_num⟩
  · norm_num [calculateWidgetSizes, calculateWidgetSizesChildren, c7Widget, Widget.childAt,
      Widget.children, Widget.sizeX, Widget.sizeY, Widget.dimensions, UiSize.kind,
      childrenMaxW, childrenSumW, childrenMaxH, childrenSumH, numberMinValue] <;> decide
  · norm_num [calculateWidgetSizes, calculateWidgetSizesChildren, c7Widget, Widget.childAt,
      Widget.children, Widget.sizeX, Widget.sizeY, Widget.dimensions, UiSize.kind,
      childrenMaxW, childrenSumW, childrenMaxH, childrenSumH]

/-- Claim C7 (amended): size resolution is idempotent on trees that use no
`percentOfParent` spec.  In general it is not idempotent: a `percentOfParent`
child of an aggregate-sized (`childrenMax`) parent reads the parent dimension
computed by the previous run, so a second run can change dimensions (see the
counterexample). -/
theorem c7_idempotent_without_percent (w : Widget) (h : w.percentFree = true) :
    calculateWidgetSizes Option.none (calculateWidgetSizes Option.none w) =
      calculateWidgetSizes Option.none w :=
  calculateWidgetSizes_idem w h Option.none Option.none

/-- Witness for `c7_idempotent_without_percent` at `c7WitnessWidget`. -/
theorem c7_idempotent_without_percent_witness :
    calculateWidgetSizes Option.none (calculateWidgetSizes Option.none c7WitnessWidget) =
      calculateWidgetSizes Option.none c7WitnessWidget :=
  c7_idempotent_without_percent c7WitnessWidget
    (by simp [c7WitnessWidget, Widget.percentFree, Widget.percentFreeList, UiSize.usesPercent])

/-- `calculateWidgetSizes` never changes a widget's own relative position. -/
theorem relativePosition_calculateWidgetSizes (p : Option Widget) (v : Widget) :
    (calculateWidgetSizes p v).relativePosition = v.relativePosition := by
  cases v with
  | mk cdef cs sx sy rp dims ld pad ep dat =>
    cases sx <;> cases sy <;> cases p <;>
      simp [calculateWidgetSizes, Widget.relativePosition]

/-- When there is no previous sibling, the overflow rules keep the freshly
computed relative position (the row-wrap branch requires a sibling, and the
reflow column is created at the same position). -/
theorem relativePosition_applyOverflowRules_of_sibling_none
    (split : String → ℚ → List String) (measure : String → Dimensions)
    (pageDims : Dimensions) (parent : Option PosCtx) (rel : Point) (w : Widget) :
    (applyOverflowRules split measure pageDims parent rel Option.none w).relativePosition =
      rel := by
  unfold applyOverflowRules
  simp only [Option.isSome_none, Bool.false_eq_true, and_false, false_and, if_false,
    ite_false]
  split
  · split <;> first
      | (rw [relativePosition_calculateWidgetSizes]; rfl)
      | simp
  · simp

set_option maxHeartbeats 2000000 in
/-- Claim C8 counterexample: the first child of a container with padding 5
ends up at (3, 10) — its own padding 3 plus its pre-existing relative
position (0, 7) — not at the container's `(padding, padding) = (5, 5)` (nor
even at its own `(3, 3)`). -/
theorem c8_counterexample :
    ((resultWidget (calculateRelativePositions splitId measureConst pageDims0 2
        Option.none Option.none c8Root)).childAt 0).relativePosition = ⟨3, 10⟩ ∧
    (⟨3, 10⟩ : Point) ≠ ⟨c8Root.padding, c8Root.padding⟩ ∧
    (⟨3, 10⟩ : Point) ≠ ⟨(c8Root.childAt 0).padding, (c8Root.childAt 0).padding⟩ := by
  refine ⟨?_, ?_, ?_⟩
  · norm_num [calculateRelativePositions, calculateRelativePositionsChildren, positionOrigin,
      applyOverflowRules, c8Root, resultWidget, splitId, measureConst, pageDims0,
      Widget.childAt, Widget.children, Widget.childrenDef, Widget.relativePosition,
      Widget.dimensions, Widget.padding, Widget.elementPadding, Widget.layoutDirection,
      Widget.data, Widget.setRelativePosition, Widget.setChildren, Widget.isTextWidget,
      Widget.wrapFlag]
  · norm_num [c8Root, Widget.padding, Point.mk.injEq]
  · norm_num [c8Root, Widget.childAt, Widget.children, Widget.padding, Point.mk.injEq]

/-- Claim C8 (amended): a first child (index 0) is positioned at its own
`padding` plus its pre-existing relative position — `(child.padding +
child.relativePosition.x, child.padding + child.relativePosition.y)` — not at
the container's `(padding, padding)`. -/
theorem c8_first_child_offset_by_own_padding (split : String → ℚ → List String)
    (measure : String → Dimensions) (pageDims : Dimensions) (fuel : ℕ) (ctx : PosCtx)
    (w w' : Widget)
    (h : calculateRelativePositions split measure pageDims (fuel + 1) (some ctx) (some 0) w =
      Except.ok w') :
    w'.relativePosition =
      ⟨w.padding + w.relativePosition.x, w.padding + w.relativePosition.y⟩ := by
  rw [calculateRelativePositions] at h
  rw [show positionOrigin (some ctx) (some 0) w =
      Except.ok (⟨w.padding + w.relativePosition.x, w.padding + w.relativePosition.y⟩,
        Option.none) from rfl] at h
  simp only [] at h
  split at h
  · split at h
    · injection h with h'
      subst h'
      simp [relativePosition_applyOverflowRules_of_sibling_none]
    · exact Except.noConfusion h
  · injection h with h'
    subst h'
    simp [relativePosition_applyOverflowRules_of_sibling_none]

set_option maxHeartbeats 1000000 in
/-- Witness for `c8_first_child_offset_by_own_padding` at `c8WitnessChild`. -/
theorem c8_first_child_offset_by_own_padding_witness :
    (c8WitnessChild.setRelativePosition ⟨3, 10⟩).relativePosition =
      ⟨c8WitnessChild.padding + c8WitnessChild.relativePosition.x,
       c8WitnessChild.padding + c8WitnessChild.relativePosition.y⟩ :=
  c8_first_child_offset_by_own_padding splitId measureConst pageDims0 0 c8WitnessCtx
    c8WitnessChild (c8WitnessChild.setRelativePosition ⟨3, 10⟩)
    (by norm_num [calculateRelativePositions, positionOrigin, applyOverflowRules,
      c8WitnessChild, c8WitnessCtx, splitId, measureConst, pageDims0, Widget.childrenDef,
      Widget.relativePosition, Widget.dimensions, Widget.padding, Widget.data,
      Widget.setRelativePosition, Widget.isTextWidget, Widget.wrapFlag])

theorem positionOrigin_ok (parent : Option PosCtx) (index : Option ℕ) (w : Widget)
    (hg : goodCall parent index) :
    ∃ pr, positionOrigin parent index w = Except.ok pr := by
  match parent, index with
  | Option.none, _ => exact ⟨_, rfl⟩
  | some ctx, some 0 => exact ⟨_, rfl⟩
  | some ctx, some (i + 1) =>
    have hi : i < ctx.children.length := hg
    cases hsib : ctx.children.get? i with
    | none =>
      have := List.get?_eq_none.mp hsib
      omega
    | some sib =>
      simp only [positionOrigin, hsib]
      split <;> exact ⟨_, rfl⟩
  | some ctx, Option.none => exact hg.elim

/-- The children loop only errors if one of the per-child calls does. -/
theorem calculateRelativePositionsChildren_ok_or_fuel (split : String → ℚ → List String)
    (measure : String → Dimensions) (pageDims : Dimensions) (fuel : ℕ)
    (hrec : ∀ (parent : Option PosCtx) (index : Option ℕ) (c : Widget),
      goodCall parent index →
      calculateRelativePositions split measure pageDims fuel parent index c =
          Except.error fuelExhausted ∨
      ∃ t, calculateRelativePositions split measure pageDims fuel parent index c =
          Except.ok t) :
    ∀ (todo done : List Widget) (rel : Point) (dims : Dimensions)
      (ld : Option LayoutDirection) (ep : ℚ),
      calculateRelativePositionsChildren split measure pageDims fuel rel dims ld ep done todo =
          Except.error fuelExhausted ∨
      ∃ ts, calculateRelativePositionsChildren split measure pageDims fuel rel dims ld ep
          done todo = Except.ok ts := by
  intro todo
  induction todo with
  | nil =>
    intro done rel dims ld ep
    right
    exact ⟨done, by rw [calculateRelativePositionsChildren]⟩
  | cons c rest ih =>
    intro done rel dims ld ep
    have hgc : goodCall (some ⟨rel, dims, ld, ep, done ++ c :: rest⟩) (some done.length) := by
      cases done with
      | nil => trivial
      | cons d ds =>
        show ds.length < ((d :: ds) ++ c :: rest).length
        simp
        omega
    rw [calculateRelativePositionsChildren]
    rcases hrec _ _ c hgc with he | ⟨t, ht⟩
    · rw [he]
      left
      rfl
    · rw [ht]
      exact ih (done ++ [t]) rel dims ld ep

/-- A root-style run of the Position Resolver either runs out of fuel (a
bound of the embedding, never of the source) or succeeds; no input — in
particular no zero-dimension node — produces any other error. -/
theorem calculateRelativePositions_ok_or_fuel (split : String → ℚ → List String)
    (measure : String → Dimensions) (pageDims : Dimensions) :
    ∀ (fuel : ℕ) (parent : Option PosCtx) (index : Option ℕ) (w : Widget),
      goodCall parent index →
      calculateRelativePositions split measure pageDims fuel parent index w =
          Except.error fuelExhausted ∨
      ∃ t, calculateRelativePositions split measure pageDims fuel parent index w =
          Except.ok t := by
  intro fuel
  induction fuel with
  | zero =>
    intro parent index w _
    left
    rw [calculateRelativePositions]
  | succ fuel ih =>
    intro parent index w hg
    obtain ⟨⟨rel, sibling⟩, hpr⟩ := positionOrigin_ok parent index w hg
    rw [calculateRelativePositions, hpr]
    simp only []
    by_cases hcd :
        (applyOverflowRules split measure pageDims parent rel sibling w).childrenDef = true
    · rw [if_pos hcd]
      rcases calculateRelativePositionsChildren_ok_or_fuel split measure pageDims fuel ih
          (applyOverflowRules split measure pageDims parent rel sibling w).children []
          (applyOverflowRules split measure pageDims parent rel sibling w).relativePosition
          (applyOverflowRules split measure pageDims parent rel sibling w).dimensions
          (applyOverflowRules split measure pageDims parent rel sibling w).layoutDirection
          (applyOverflowRules split measure pageDims parent rel sibling w).elementPadding
        with he | ⟨ts, hts⟩
      · rw [he]
        left
        rfl
      · rw [hts]
        right
        exact ⟨_, rfl⟩
    · rw [if_neg hcd]
      right
      exact ⟨_, rfl⟩

/-- Claim C9 (amended): the Position Resolver performs no dimension check and
never aborts.  A pipeline-style run (no parent context, as
`calculateWidgetLayout` invokes it on the root) either completes with a
positioned tree or merely exhausts the explicit recursion fuel of this
bounded embedding; no node — in particular no zero-width or zero-height
node — triggers an error or prevents the render. -/
theorem c9_no_zero_dimension_abort (split : String → ℚ → List String)
    (measure : String → Dimensions) (pageDims : Dimensions) (fuel : ℕ) (w : Widget) :
    calculateRelativePositions split measure pageDims fuel Option.none Option.none w =
        Except.error fuelExhausted ∨
    ∃ t, calculateRelativePositions split measure pageDims fuel Option.none Option.none w =
        Except.ok t :=
  calculateRelativePositions_ok_or_fuel split measure pageDims fuel Option.none Option.none w
    trivial

set_option maxHeartbeats 2000000 in
/-- Claim C9 counterexample: a tree containing a zero-width, zero-height node
is positioned successfully — no fatal error, no abort, no report. -/
theorem c9_counterexample :
    isOkResult (calculateRelativePositions splitId measureConst pageDims0 2
        Option.none Option.none c9Root) = true ∧
    (c9Root.childAt 0).dimensions.w = 0 ∧
    (c9Root.childAt 0).dimensions.h = 0 := by
  refine ⟨?_, ?_, ?_⟩
  · norm_num [calculateRelativePositions, calculateRelativePositionsChildren, positionOrigin,
      applyOverflowRules, isOkResult, c9Root, splitId, measureConst, pageDims0,
      Widget.childAt, Widget.children, Widget.childrenDef, Widget.relativePosition,
      Widget.dimensions, Widget.padding, Widget.elementPadding, Widget.layoutDirection,
      Widget.data, Widget.setRelativePosition, Widget.setChildren, Widget.isTextWidget,
      Widget.wrapFlag]
  · norm_num [c9Root, Widget.childAt, Widget.children, Widget.dimensions]
  · norm_num [c9Root, Widget.childAt, Widget.children, Widget.dimensions]

set_option maxHeartbeats 4000000 in
/-- Claim C2, failing input: the splitter returns 2 lines ("AAA", "BBB") and
`maxLines = 10`, so the claim (and spec) require the overflowing text leaf to
be replaced by a column of `min(2, 10) = 2` line-leaves.  The code
destructures `const [first, ...wrappedText]` and never uses `first`: the
replacement column holds exactly one leaf, carrying only the second line
"BBB"; the first line "AAA" is silently lost. -/
theorem c2_reflow_drops_first_line :
    (c2Split "AAA BBB" 100).length = 2 ∧
    ((resultWidget (calculateRelativePositions c2Split c2Measure pageDims0 3
        Option.none Option.none c2Root)).childAt 0).data = WidgetData.none ∧
    ((resultWidget (calculateRelativePositions c2Split c2Measure pageDims0 3
        Option.none Option.none c2Root)).childAt 0).children.length = 1 ∧
    (((resultWidget (calculateRelativePositions c2Split c2Measure pageDims0 3
        Option.none Option.none c2Root)).childAt 0).childAt 0).data =
      WidgetData.text "BBB" false numberMaxValue := by
  refine ⟨by norm_num [c2Split], ?_, ?_, ?_⟩ <;>
    norm_num [calculateRelativePositions, calculateRelativePositionsChildren, positionOrigin,
      applyOverflowRules, buildLineLeaves, wrappedLineLeaf, calculateWidgetSizes,
      calculateWidgetSizesChildren, childrenMaxW, childrenSumW, childrenMaxH, childrenSumH,
      numberMinValue, c2Root, c2Split, c2Measure, resultWidget, pageDims0, Widget.childAt,
      Widget.children, Widget.childrenDef, Widget.relativePosition, Widget.dimensions,
      Widget.padding, Widget.elementPadding, Widget.layoutDirection, Widget.data,
      Widget.setRelativePosition, Widget.setChildren, Widget.isTextWidget, Widget.wrapFlag]
